import Mathlib

/-!
Verification of the Gemini-Novel-Maker chapter-generation pipeline.

This file gives a shallow embedding of the Python sources
(`chapter_generator.py`, `context_manager.py`) and proves properties of the
embedded definitions.

Modelling conventions:
* Python strings are Lean `String`s; character-level helpers (`pyContains`,
  `pySplit`, `pyStrip`, `pyJoin`) reproduce the semantics of Python's
  `in`, `str.split`, `str.strip` and `str.join` on the underlying character
  lists.  `pySplit` carries a fuel argument (`length + 1` always suffices,
  since every step of Python's `split` with a non-empty separator consumes
  at least one character) so the recursion is structural and reduces in the
  kernel.
* The output directory is modelled by `FS`: chapter documents
  (`output/Chapter {n}.docx`) are keyed by their number `n` (the rendered
  path is injective in `n`), and validity reports are keyed by their full
  path string.  A `.docx` `Document` is its list of paragraph texts,
  headings included (python-docx exposes headings as paragraphs).
* The remote Gemini endpoints are modelled by an `Oracle` of pre-determined
  responses: `Except.error e` is a raised exception with message `e`, and
  `Except.ok` is a successful response (for generation, the list of streamed
  chunks).  Theorems quantify over all oracles.
-/

/-- Python `needle in s` on character lists. -/
def pyContainsCore (needle : List Char) : List Char → Bool
  | [] => needle.isEmpty
  | c :: rest => needle.isPrefixOf (c :: rest) || pyContainsCore needle rest

/-- Python `needle in s` for strings. -/
def pyContainsS (needle s : String) : Bool :=
  pyContainsCore needle.data s.data

/-- Python `s.split(sep)` on character lists, with fuel making the recursion
structural; `s.length + 1` fuel always suffices for a non-empty separator. -/
def pySplitCore (sep : List Char) : Nat → List Char → List (List Char)
  | 0, s => [s]
  | fuel + 1, s =>
    match s with
    | [] => [[]]
    | c :: rest =>
      if sep.isPrefixOf (c :: rest) then
        [] :: pySplitCore sep fuel ((c :: rest).drop sep.length)
      else
        match pySplitCore sep fuel rest with
        | [] => [[c]]
        | h :: t => (c :: h) :: t

/-- Python `s.split(sep)` for strings. -/
def pySplit (sep s : String) : List String :=
  (pySplitCore sep.data (s.data.length + 1) s.data).map String.mk

/-- Python `s.strip()`: whitespace removed from both ends. -/
def pyStrip (s : String) : String :=
  String.mk (((s.data.dropWhile Char.isWhitespace).reverse.dropWhile
    Char.isWhitespace).reverse)

/-- Python `sep.join(parts)`. -/
def pyJoin (sep : String) : List String → String
  | [] => ""
  | [x] => x
  | x :: y :: rest => x ++ sep ++ pyJoin sep (y :: rest)

/-- Python `str(b)` for a boolean. -/
def pyBool (b : Bool) : String := if b then "True" else "False"

/-! ## Context manager (`context_manager.py`) -/

/-- The `ContextManager.context` dict: `characters` is a Python dict
(association list in insertion order, updating an existing key keeps its
position), the other three fields are Python lists. -/
structure ContextManager where
  characters : List (String × String)
  plot : List String
  settings : List String
  other_elements : List String

/-- `ContextManager.__init__`: all four fields empty. -/
def ContextManager.init : ContextManager := ⟨[], [], [], []⟩

/-- Python dict assignment `d[name] = description`: replace in place if the
key is present (insertion order preserved), else append at the end. -/
def upsertChar : List (String × String) → String → String → List (String × String)
  | [], name, description => [(name, description)]
  | (k, v) :: rest, name, description =>
    if k = name then (k, description) :: rest
    else (k, v) :: upsertChar rest name description

/-- `ContextManager.add_character`. -/
def ContextManager.add_character (cm : ContextManager) (name description : String) :
    ContextManager :=
  { cm with characters := upsertChar cm.characters name description }

/-- `ContextManager.add_plot_point`. -/
def ContextManager.add_plot_point (cm : ContextManager) (plot_point : String) :
    ContextManager :=
  { cm with plot := cm.plot ++ [plot_point] }

/-- `ContextManager.add_setting`. -/
def ContextManager.add_setting (cm : ContextManager) (setting : String) :
    ContextManager :=
  { cm with settings := cm.settings ++ [setting] }

/-- `ContextManager.add_other_element`. -/
def ContextManager.add_other_element (cm : ContextManager) (element : String) :
    ContextManager :=
  { cm with other_elements := cm.other_elements ++ [element] }

/-- The lines accumulated by `ContextManager.get_context`, in the source's
iteration order: the `characters` dict first (`"{key}: {sub_key}: {sub_value}\n"`),
then the three list fields (`"{key}: {item}\n"`). -/
def ContextManager.context_lines (cm : ContextManager) : List String :=
  cm.characters.map (fun kv => "characters: " ++ kv.1 ++ ": " ++ kv.2 ++ "\n")
    ++ cm.plot.map (fun item => "plot: " ++ item ++ "\n")
    ++ cm.settings.map (fun item => "settings: " ++ item ++ "\n")
    ++ cm.other_elements.map (fun item => "other_elements: " ++ item ++ "\n")

/-- `ContextManager.get_context`: `context_str += line` over the iteration,
i.e. the left fold of string append over the lines. -/
def ContextManager.get_context (cm : ContextManager) : String :=
  cm.context_lines.foldl (fun acc l => acc ++ l) ""

/-- One mutating call on the context manager. -/
inductive COp where
  | add_character (name description : String)
  | add_plot_point (p : String)
  | add_setting (s : String)
  | add_other_element (e : String)

/-- Apply one call. -/
def applyCOp (cm : ContextManager) : COp → ContextManager
  | COp.add_character n d => cm.add_character n d
  | COp.add_plot_point p => cm.add_plot_point p
  | COp.add_setting s => cm.add_setting s
  | COp.add_other_element e => cm.add_other_element e

/-- Apply a sequence of calls. -/
def runCOps (cm : ContextManager) (l : List COp) : ContextManager :=
  l.foldl applyCOp cm

/-! ## Filesystem model for the `output/` directory -/

/-- A `.docx` document: its list of paragraph texts (headings are paragraphs
too, as exposed by python-docx's `Document.paragraphs`). -/
abbrev Doc := List String

/-- The path `f'output/Chapter {i}.docx'` used for chapter documents. -/
def chapter_doc_path (n : Nat) : String :=
  "output/Chapter " ++ toString n ++ ".docx"

/-- The path `f'output/Chapter {chapter_number} validity.docx'` used for
validity reports. -/
def validity_path (n : Nat) : String :=
  "output/Chapter " ++ toString n ++ " validity.docx"

/-- The on-disk state the generator touches.  Chapter documents are keyed by
their number (their rendered path `output/Chapter {n}.docx` is injective in
`n` and never collides with a validity-report path, which ends in
`" validity.docx"`); validity reports are keyed by their full path string. -/
structure FS where
  chapters : List (Nat × Doc)
  validity : String → Option Doc

/-- The chapter numbers whose document exists on disk. -/
def FS.occupied (fs : FS) : List Nat := fs.chapters.map Prod.fst

/-! ## Chapter generator (`chapter_generator.py`) -/

/-- `ChapterGenerator.__init__` state: the two token ceilings. -/
structure ChapterGenerator where
  MAX_INPUT_TOKENS : Nat
  MAX_OUTPUT_TOKENS : Nat

/-- `ChapterGenerator.__init__`:
`self.MAX_INPUT_TOKENS = 2097152 if 'pro' in generation_model else 1048576`,
`self.MAX_OUTPUT_TOKENS = 8192`. -/
def ChapterGenerator.ofModels (generation_model : String) : ChapterGenerator :=
  { MAX_INPUT_TOKENS := if pyContainsS "pro" generation_model then 2097152 else 1048576
    MAX_OUTPUT_TOKENS := 8192 }

/-- `ChapterGenerator.estimate_token_count`: `len(text) // 4`. -/
def estimate_token_count (text : String) : Nat := text.length / 4

/-- The responses of the remote Gemini endpoints for one
`generate_chapter` run.  `Except.error e` models the call raising an
exception with message `e`; for generation, `Except.ok chunks` is the list
of streamed chunks. -/
structure Oracle where
  generation : Except String (List String)
  check : Except String String
  review : Except String String
  style : Except String String
  continuity : Except String String
  tests : Except String String

/-- The accumulation loop of `ChapterGenerator.get_existing_chapter_content`,
over the remaining chapter indices (the Python `for i in range(1, chapter_number)`
body): skip missing documents, stop (`break`) as soon as an existing chapter
would push the running token total over `MAX_INPUT_TOKENS // 2`, otherwise
prepend the chapter text (`existing_content = chapter_content + "\n" + existing_content`)
and add its tokens. -/
def ChapterGenerator.gather (g : ChapterGenerator) (fs : FS) :
    List Nat → String → Nat → String × Nat
  | [], existing_content, total_tokens => (existing_content, total_tokens)
  | i :: rest, existing_content, total_tokens =>
    match fs.chapters.lookup i with
    | none => g.gather fs rest existing_content total_tokens
    | some doc =>
      let chapter_content := pyJoin "\n" doc
      let chapter_tokens := estimate_token_count chapter_content
      if total_tokens + chapter_tokens > g.MAX_INPUT_TOKENS / 2 then
        (existing_content, total_tokens)
      else
        g.gather fs rest (chapter_content ++ "\n" ++ existing_content)
          (total_tokens + chapter_tokens)

/-- `ChapterGenerator.get_existing_chapter_content`: run the loop over
chapter indices `1 .. chapter_number - 1` (in that order), returning `none`
when nothing was accumulated. -/
def ChapterGenerator.get_existing_chapter_content (g : ChapterGenerator) (fs : FS)
    (chapter_number : Nat) : Option String :=
  let r := g.gather fs (List.range' 1 (chapter_number - 1)) "" 0
  if r.1 = "" then none else some r.1

/-- Modelled from the spec: the spec's description of context-window
management says prior chapters are gathered "from the latest chapter
backward" until the budget would be exceeded, "older chapters that would
exceed budget are silently omitted".  This runs the same budgeted loop over
the indices `chapter_number - 1, .., 1` (newest first).  It exists only to
be compared with `ChapterGenerator.get_existing_chapter_content`, which is
translated from the source. -/
def ChapterGenerator.get_existing_chapter_content_spec (g : ChapterGenerator) (fs : FS)
    (chapter_number : Nat) : Option String :=
  let r := g.gather fs (List.range' 1 (chapter_number - 1)).reverse "" 0
  if r.1 = "" then none else some r.1

/-- The chapter indices out of `idxs` actually folded into the result by
`ChapterGenerator.gather` when starting from token total `total` (ghost
companion of `gather`, same control flow). -/
def ChapterGenerator.included (g : ChapterGenerator) (fs : FS) :
    List Nat → Nat → List Nat
  | [], _ => []
  | i :: rest, total_tokens =>
    match fs.chapters.lookup i with
    | none => g.included fs rest total_tokens
    | some doc =>
      let chapter_tokens := estimate_token_count (pyJoin "\n" doc)
      if total_tokens + chapter_tokens > g.MAX_INPUT_TOKENS / 2 then []
      else i :: g.included fs rest (total_tokens + chapter_tokens)

/-- The full text of the chapter document numbered `i` as read by
`get_existing_chapter_content`: paragraphs joined by `"\n"`. -/
def contentOf (fs : FS) (i : Nat) : String :=
  pyJoin "\n" ((fs.chapters.lookup i).getD [])

/-- Folding a list of chapter indices the way the accumulation loop does:
each chapter's full text is prepended in front of the accumulator. -/
def renderRev (fs : FS) (l : List Nat) (acc : String) : String :=
  l.foldl (fun acc i => contentOf fs i ++ "\n" ++ acc) acc

/-- Sum of the token estimates of the chapters at the given indices. -/
def sumTokens (fs : FS) (l : List Nat) : Nat :=
  (l.map (fun i => estimate_token_count (contentOf fs i))).sum

/-- The `while os.path.exists(output_path)` loop of
`ChapterGenerator.save_response`: increment the chapter number until its
path is free.  The loop runs at most once per occupied chapter number, so
`occ.length + 1` fuel always suffices (`next_free_spec` below). -/
def next_free_fuel : Nat → List Nat → Nat → Nat
  | 0, _, n => n
  | fuel + 1, occ, n => if n ∈ occ then next_free_fuel fuel occ (n + 1) else n

/-- `ChapterGenerator.save_response`: probe paths starting from the
requested number (the caller passes `output_path = f'output/Chapter {chapter_number}.docx'`,
matching `chapter_number`), take the first free number `m`, and write a
document with heading `f'Chapter {m}'` followed by one paragraph holding the
chapter body.  Returns the number actually used and the new state. -/
def save_response (fs : FS) (chapter : String) (chapter_number : Nat) : Nat × FS :=
  let m := next_free_fuel (fs.occupied.length + 1) fs.occupied chapter_number
  (m, { fs with chapters := (m, ["Chapter " ++ toString m, chapter]) :: fs.chapters })

/-! ### Validator passes

Each pass sends a templated prompt to the checking endpoint and parses the
response.  The endpoint exchange is abstracted by the pass's
`Except String String` argument; everything after `response.text` is
translated from the source. -/

/-- `ChapterGenerator.check_chapter`: `is_valid = "Valid: Yes" in response_text`;
`feedback = response_text.split("Feedback:")[1].strip() if "Feedback:" in response_text else response_text`;
on exception, `(False, "An error occurred while checking the chapter.")`. -/
def check_chapter (resp : Except String String) : Bool × String :=
  match resp with
  | Except.error _ => (false, "An error occurred while checking the chapter.")
  | Except.ok response_text =>
    let is_valid := pyContainsS "Valid: Yes" response_text
    let feedback := if pyContainsS "Feedback:" response_text then
        pyStrip ((pySplit "Feedback:" response_text).getD 1 "")
      else response_text
    (is_valid, feedback)

/-- `ChapterGenerator.review_chapter`: the text after `"Review:"` (or the
whole response), split on newlines; on exception,
`["An error occurred while reviewing the chapter."]`. -/
def review_chapter (resp : Except String String) : List String :=
  match resp with
  | Except.error _ => ["An error occurred while reviewing the chapter."]
  | Except.ok response_text =>
    let review_feedback := if pyContainsS "Review:" response_text then
        pyStrip ((pySplit "Review:" response_text).getD 1 "")
      else response_text
    pySplit "\n" review_feedback

/-- `ChapterGenerator.enforce_style_guide`: boolean from
`"Adheres to Style Guide: Yes"`, feedback from `"Feedback:"`; on exception,
`(False, "An error occurred while enforcing the style guide.")`. -/
def enforce_style_guide (resp : Except String String) : Bool × String :=
  match resp with
  | Except.error _ => (false, "An error occurred while enforcing the style guide.")
  | Except.ok response_text =>
    let adheres_to_style_guide := pyContainsS "Adheres to Style Guide: Yes" response_text
    let feedback := if pyContainsS "Feedback:" response_text then
        pyStrip ((pySplit "Feedback:" response_text).getD 1 "")
      else response_text
    (adheres_to_style_guide, feedback)

/-- `ChapterGenerator.check_continuity`: boolean from `"Continuity: Yes"`,
feedback from `"Feedback:"`; on exception,
`(False, "An error occurred while checking continuity.")`. -/
def check_continuity (resp : Except String String) : Bool × String :=
  match resp with
  | Except.error _ => (false, "An error occurred while checking continuity.")
  | Except.ok response_text =>
    let continuity := pyContainsS "Continuity: Yes" response_text
    let feedback := if pyContainsS "Feedback:" response_text then
        pyStrip ((pySplit "Feedback:" response_text).getD 1 "")
      else response_text
    (continuity, feedback)

/-- `ChapterGenerator.run_tests`: the text after `"Test Results:"` (or the
whole response), split on newlines; on exception,
`["An error occurred while running tests."]`. -/
def run_tests (resp : Except String String) : List String :=
  match resp with
  | Except.error _ => ["An error occurred while running tests."]
  | Except.ok response_text =>
    let test_results := if pyContainsS "Test Results:" response_text then
        pyStrip ((pySplit "Test Results:" response_text).getD 1 "")
      else response_text
    pySplit "\n" test_results

/-! ### Prompt construction and persistence -/

/-- The `instructions` dict handed to `generate_chapter`; absent keys read
through `.get(key, '')` are the empty string. -/
structure Instructions where
  plot : String
  writing_style : String
  instructions : String
  style_guide : String
  chapter_filename : String

/-- The Python truthiness fallback
`previous_chapters if previous_chapters else "No previous chapters"`. -/
def orPlaceholder : Option String → String
  | some p => if p = "" then "No previous chapters" else p
  | none => "No previous chapters"

/-- `ChapterGenerator._construct_prompt`: the f-string template with all
inputs interpolated verbatim. -/
def construct_prompt (instructions : Instructions) (context : String)
    (previous_chapters : Option String) (chapter_path : String) : String :=
  ("\n        Instructions:\n        Plot: " ++ instructions.plot ++
   "\n        Writing Style: " ++ instructions.writing_style ++
   "\n        Additional Instructions: " ++ instructions.instructions ++
   "\n        Chapter Filename: " ++ chapter_path ++
   "\n        \n        Context: " ++ context ++
   "\n        \n        Previous Chapters: ") ++
  orPlaceholder previous_chapters ++
  ("...\n        \n        Based on the above instructions, context, and previous chapters, write a new chapter for the story. \n        Ensure that the chapter follows the plot points, incorporates the characters and settings, \n        adheres to the specified writing style, and maintains continuity with previous chapters.\n        ")

/-- The validity report assembled by `ChapterGenerator.save_validity_feedback`:
a heading, the two unconditional paragraphs, then one section per non-empty
feedback (Python truthiness: non-empty list / non-empty string). -/
def validity_doc (is_valid : Bool) (feedback : String) (review_feedback : List String)
    (style_guide_feedback : String) (continuity_feedback : String)
    (test_results : List String) (adheres_to_style_guide : Bool)
    (continuity : Bool) : Doc :=
  ["Chapter Validity and Feedback",
   "Is Valid: " ++ pyBool is_valid,
   "Feedback: " ++ feedback]
  ++ (if review_feedback ≠ [] then "Content Review Feedback" :: review_feedback else [])
  ++ (if style_guide_feedback ≠ "" then
        ["Style Guide Feedback",
         "Adheres to Style Guide: " ++ pyBool adheres_to_style_guide,
         "Feedback: " ++ style_guide_feedback] else [])
  ++ (if continuity_feedback ≠ "" then
        ["Continuity Feedback",
         "Continuity: " ++ pyBool continuity,
         "Feedback: " ++ continuity_feedback] else [])
  ++ (if test_results ≠ [] then "Automated Test Results" :: test_results else [])

/-- `ChapterGenerator.save_validity_feedback`: writes the report to
`f'output/Chapter {chapter_number} validity.docx'` — `chapter_path` is a
parameter of the source method but unused there — overwriting whatever was
at that path.  Returns the path written and the new state. -/
def save_validity_feedback (fs : FS) (is_valid : Bool) (feedback : String)
    (chapter_path : String) (review_feedback : List String)
    (style_guide_feedback : String) (continuity_feedback : String)
    (test_results : List String) (adheres_to_style_guide : Bool)
    (continuity : Bool) (chapter_number : Nat) : String × FS :=
  let p := validity_path chapter_number
  let doc := validity_doc is_valid feedback review_feedback style_guide_feedback
    continuity_feedback test_results adheres_to_style_guide continuity
  (p, { fs with validity := fun q => if q = p then some doc else fs.validity q })

/-- `chapter = ""` then `chapter += chunk.text` over the streamed response. -/
def concatChunks (chunks : List String) : String :=
  chunks.foldl (fun a c => a ++ c) ""

/-- `ChapterGenerator.generate_chapter`.  The whole body is wrapped in
`try/except`: if the generation call raises, the handler returns
`f"Error generating chapter: {e}"` without reaching `save_response` or
`save_validity_feedback` (the state is untouched).  On success the five
validator passes run (continuity only when previous chapters exist), the
chapter is saved regardless of warnings, and the validity report is written
for the originally requested `chapter_number`. -/
def generate_chapter (g : ChapterGenerator) (o : Oracle) (instructions : Instructions)
    (context : String) (chapter_path : String) (chapter_number : Nat) (fs : FS) :
    String × FS :=
  let previous_chapters := g.get_existing_chapter_content fs chapter_number
  let _prompt := construct_prompt instructions context previous_chapters chapter_path
  match o.generation with
  | Except.error e => ("Error generating chapter: " ++ e, fs)
  | Except.ok chunks =>
    let chapter := concatChunks chunks
    let vc := check_chapter o.check
    let review_feedback := review_chapter o.review
    let sg := enforce_style_guide o.style
    let cont := match previous_chapters with
      | none => (true, "No previous chapters available for continuity check.")
      | some _ => check_continuity o.continuity
    let test_results := run_tests o.tests
    let r := save_response fs chapter chapter_number
    let rv := save_validity_feedback r.2 vc.1 vc.2 chapter_path review_feedback
      sg.2 cont.2 test_results sg.1 cont.1 chapter_number
    (chapter, rv.2)

/-! ## Lemmas about the renumbering loop -/

theorem filter_ge_mono_length (t : List Nat) (n : Nat) :
    (t.filter (fun m => n + 1 ≤ m)).length ≤ (t.filter (fun m => n ≤ m)).length := by
  induction t with
  | nil => simp
  | cons a t ih =>
    by_cases h1 : n + 1 ≤ a
    · have h2 : n ≤ a := by omega
      simp [List.filter_cons, h1, h2]
      omega
    · by_cases h2 : n ≤ a <;> simp [List.filter_cons, h1, h2] <;> omega

theorem filter_ge_succ_length_lt {occ : List Nat} {n : Nat} (h : n ∈ occ) :
    (occ.filter (fun m => n + 1 ≤ m)).length < (occ.filter (fun m => n ≤ m)).length := by
  induction occ with
  | nil => cases h
  | cons a t ih =>
    rcases List.mem_cons.mp h with heq | hmem
    · subst heq
      have h1 : ¬ (n + 1 ≤ n) := by omega
      have h2 : n ≤ n := Nat.le_refl n
      simp [List.filter_cons, h1, h2]
      exact Nat.lt_succ_of_le (filter_ge_mono_length t n)
    · by_cases h1 : n + 1 ≤ a
      · have h2 : n ≤ a := by omega
        simp [List.filter_cons, h1, h2]
        exact ih hmem
      · by_cases h2 : n ≤ a
        · simp [List.filter_cons, h1, h2]
          have := ih hmem
          omega
        · simp [List.filter_cons, h1, h2]
          exact ih hmem

theorem next_free_spec (occ : List Nat) :
    ∀ fuel n, (occ.filter (fun m => n ≤ m)).length < fuel →
      next_free_fuel fuel occ n ∉ occ ∧ n ≤ next_free_fuel fuel occ n ∧
        ∀ k, n ≤ k → k < next_free_fuel fuel occ n → k ∈ occ := by
  intro fuel
  induction fuel with
  | zero => intro n h; exact absurd h (Nat.not_lt_zero _)
  | succ f ih =>
    intro n h
    by_cases hmem : n ∈ occ
    · have hlt : (occ.filter (fun m => n + 1 ≤ m)).length < f := by
        have := filter_ge_succ_length_lt hmem
        omega
      have r := ih (n + 1) hlt
      simp only [next_free_fuel, if_pos hmem]
      refine ⟨r.1, by omega, ?_⟩
      intro k hk1 hk2
      rcases Nat.eq_or_lt_of_le hk1 with rfl | hlt2
      · exact hmem
      · exact r.2.2 k (by omega) hk2
    · simp only [next_free_fuel, if_neg hmem]
      exact ⟨hmem, Nat.le_refl n,
        fun k hk1 hk2 => absurd (Nat.lt_of_le_of_lt hk1 hk2) (Nat.lt_irrefl n)⟩

theorem save_response_next_free (fs : FS) (chapter : String) (n : Nat) :
    (save_response fs chapter n).1 ∉ fs.occupied ∧ n ≤ (save_response fs chapter n).1 ∧
      ∀ k, n ≤ k → k < (save_response fs chapter n).1 → k ∈ fs.occupied :=
  next_free_spec fs.occupied (fs.occupied.length + 1) n
    (Nat.lt_succ_of_le (List.length_filter_le _ _))

/-- C2: `save_response` probes paths starting from the requested number,
writes the chapter to the first number whose document does not already
exist, uses that (possibly incremented) number in the document heading, and
never overwrites an existing chapter document: the saved number is free, is
the least free number at or above the request (every number from the request
up to it is occupied), the written document's heading carries the saved
number, and every previously existing chapter document is still looked up
unchanged. -/
theorem save_response_auto_renumber (fs : FS) (chapter : String) (n : Nat) :
    (save_response fs chapter n).1 ∉ fs.occupied
    ∧ n ≤ (save_response fs chapter n).1
    ∧ (∀ k, n ≤ k → k < (save_response fs chapter n).1 → k ∈ fs.occupied)
    ∧ (save_response fs chapter n).2.chapters =
        ((save_response fs chapter n).1,
          ["Chapter " ++ toString (save_response fs chapter n).1, chapter]) :: fs.chapters
    ∧ (save_response fs chapter n).2.chapters.lookup (save_response fs chapter n).1 =
        some ["Chapter " ++ toString (save_response fs chapter n).1, chapter]
    ∧ ∀ k, k ≠ (save_response fs chapter n).1 →
        (save_response fs chapter n).2.chapters.lookup k = fs.chapters.lookup k := by
  obtain ⟨h1, h2, h3⟩ := save_response_next_free fs chapter n
  refine ⟨h1, h2, h3, rfl, ?_, ?_⟩
  · simp [save_response, List.lookup]
  · intro k hk
    have hb : (k == next_free_fuel (fs.occupied.length + 1) fs.occupied n) = false :=
      beq_eq_false_iff_ne.mpr hk
    simp [save_response, List.lookup, hb]

/-- Witness for C2: with chapter 1 already on disk, saving chapter 1 goes to
the free number 2, whose heading reads `Chapter 2`, and chapter 1's document
is untouched. -/
theorem save_response_auto_renumber_witness :
    ((save_response ⟨[(1, ["Chapter 1", "old"])], fun _ => none⟩ "body" 1).1 ∉
        FS.occupied ⟨[(1, ["Chapter 1", "old"])], fun _ => none⟩)
    ∧ (save_response ⟨[(1, ["Chapter 1", "old"])], fun _ => none⟩ "body" 1).1 = 2
    ∧ (save_response ⟨[(1, ["Chapter 1", "old"])], fun _ => none⟩ "body" 1).2.chapters.lookup 2 =
        some ["Chapter 2", "body"]
    ∧ (save_response ⟨[(1, ["Chapter 1", "old"])], fun _ => none⟩ "body" 1).2.chapters.lookup 1 =
        some ["Chapter 1", "old"] :=
  ⟨(save_response_auto_renumber ⟨[(1, ["Chapter 1", "old"])], fun _ => none⟩ "body" 1).1,
    by decide, by decide, by decide⟩

/-! ## Lemmas about the prior-chapter accumulation loop -/

theorem gather_cons_none {g : ChapterGenerator} {fs : FS} {i : Nat} {rest : List Nat}
    {acc : String} {total : Nat} (hl : fs.chapters.lookup i = none) :
    g.gather fs (i :: rest) acc total = g.gather fs rest acc total := by
  simp [ChapterGenerator.gather, hl]

theorem gather_cons_fits {g : ChapterGenerator} {fs : FS} {i : Nat} {doc : Doc}
    {rest : List Nat} {acc : String} {total : Nat}
    (hl : fs.chapters.lookup i = some doc)
    (hfit : total + estimate_token_count (pyJoin "\n" doc) ≤ g.MAX_INPUT_TOKENS / 2) :
    g.gather fs (i :: rest) acc total =
      g.gather fs rest (pyJoin "\n" doc ++ "\n" ++ acc)
        (total + estimate_token_count (pyJoin "\n" doc)) := by
  have hb : ¬ (total + estimate_token_count (pyJoin "\n" doc) > g.MAX_INPUT_TOKENS / 2) := by
    omega
  simp [ChapterGenerator.gather, hl, hb]

theorem gather_cons_over {g : ChapterGenerator} {fs : FS} {i : Nat} {doc : Doc}
    {rest : List Nat} {acc : String} {total : Nat}
    (hl : fs.chapters.lookup i = some doc)
    (hover : total + estimate_token_count (pyJoin "\n" doc) > g.MAX_INPUT_TOKENS / 2) :
    g.gather fs (i :: rest) acc total = (acc, total) := by
  simp [ChapterGenerator.gather, hl, hover]

theorem renderRev_cons (fs : FS) (i : Nat) (l : List Nat) (acc : String) :
    renderRev fs (i :: l) acc = renderRev fs l (contentOf fs i ++ "\n" ++ acc) := rfl

theorem sumTokens_cons (fs : FS) (i : Nat) (l : List Nat) :
    sumTokens fs (i :: l) = estimate_token_count (contentOf fs i) + sumTokens fs l := by
  simp [sumTokens]

theorem gather_eq_included (g : ChapterGenerator) (fs : FS) :
    ∀ (idxs : List Nat) (acc : String) (total : Nat),
      g.gather fs idxs acc total =
        (renderRev fs (g.included fs idxs total) acc,
          total + sumTokens fs (g.included fs idxs total)) := by
  intro idxs
  induction idxs with
  | nil =>
    intro acc total
    simp [ChapterGenerator.gather, ChapterGenerator.included, renderRev, sumTokens]
  | cons i rest ih =>
    intro acc total
    cases hl : fs.chapters.lookup i with
    | none =>
      rw [gather_cons_none hl, ih]
      simp [ChapterGenerator.included, hl]
    | some doc =>
      have hc : contentOf fs i = pyJoin "\n" doc := by simp [contentOf, hl]
      by_cases hb : total + estimate_token_count (pyJoin "\n" doc) > g.MAX_INPUT_TOKENS / 2
      · rw [gather_cons_over hl hb]
        simp [ChapterGenerator.included, hl, hb, renderRev, sumTokens]
      · rw [gather_cons_fits hl (by omega), ih]
        simp only [ChapterGenerator.included, hl]
        rw [if_neg hb, renderRev_cons, sumTokens_cons, hc]
        exact Prod.ext rfl (by omega)

theorem gather_total_le (g : ChapterGenerator) (fs : FS) :
    ∀ (idxs : List Nat) (acc : String) (total : Nat),
      total ≤ g.MAX_INPUT_TOKENS / 2 →
      (g.gather fs idxs acc total).2 ≤ g.MAX_INPUT_TOKENS / 2 := by
  intro idxs
  induction idxs with
  | nil => intro acc total h; exact h
  | cons i rest ih =>
    intro acc total h
    cases hl : fs.chapters.lookup i with
    | none => rw [gather_cons_none hl]; exact ih acc total h
    | some doc =>
      by_cases hb : total + estimate_token_count (pyJoin "\n" doc) > g.MAX_INPUT_TOKENS / 2
      · rw [gather_cons_over hl hb]; exact h
      · rw [gather_cons_fits hl (by omega)]; exact ih _ _ (by omega)

theorem included_initial_segment (g : ChapterGenerator) (fs : FS) :
    ∀ (idxs : List Nat) (total : Nat),
      ∃ k, g.included fs idxs total =
        (idxs.filter (fun i => (fs.chapters.lookup i).isSome)).take k := by
  intro idxs
  induction idxs with
  | nil => intro total; exact ⟨0, rfl⟩
  | cons i rest ih =>
    intro total
    cases hl : fs.chapters.lookup i with
    | none =>
      obtain ⟨k, hk⟩ := ih total
      exact ⟨k, by simp [ChapterGenerator.included, List.filter_cons, hl, hk]⟩
    | some doc =>
      by_cases hb : total + estimate_token_count (pyJoin "\n" doc) > g.MAX_INPUT_TOKENS / 2
      · exact ⟨0, by simp [ChapterGenerator.included, hl, hb]⟩
      · obtain ⟨k, hk⟩ := ih (total + estimate_token_count (pyJoin "\n" doc))
        refine ⟨k + 1, ?_⟩
        simp [ChapterGenerator.included, List.filter_cons, hl, hb, hk]

/-- C4: over any set of existing prior-chapter documents, the token total
accumulated by `get_existing_chapter_content` never exceeds
`MAX_INPUT_TOKENS // 2`; the accumulated text is exactly the full texts of
the included chapters (`renderRev` folds whole chapter contents, so every
prior chapter is included in full or excluded entirely); the final total is
the sum of the included chapters' estimates; and token estimation is exact
integer division of the character count by 4. -/
theorem token_budget_never_exceeded (g : ChapterGenerator) (fs : FS) (chapter_number : Nat) :
    (g.gather fs (List.range' 1 (chapter_number - 1)) "" 0).2 ≤ g.MAX_INPUT_TOKENS / 2
    ∧ (g.gather fs (List.range' 1 (chapter_number - 1)) "" 0).2 =
        sumTokens fs (g.included fs (List.range' 1 (chapter_number - 1)) 0)
    ∧ (g.gather fs (List.range' 1 (chapter_number - 1)) "" 0).1 =
        renderRev fs (g.included fs (List.range' 1 (chapter_number - 1)) 0) ""
    ∧ ∀ s, estimate_token_count s = s.length / 4 := by
  refine ⟨gather_total_le g fs _ "" 0 (Nat.zero_le _), ?_, ?_, fun s => rfl⟩
  · rw [gather_eq_included]; simp
  · rw [gather_eq_included]

/-- C1 (amended): `get_existing_chapter_content` walks the existing chapter
documents `1..(N-1)` FORWARD, i.e. starting from the oldest chapter, and
stops as soon as the next existing chapter would push the total over
`MAX_INPUT_TOKENS // 2`: the included chapters form an initial segment
(a `take`) of the existing chapters in increasing order, so the chapters
silently omitted are the NEWEST ones, not the oldest; each included
chapter's text is prepended in front of the accumulated text, so the result
lists included chapters newest-first. -/
theorem get_existing_forward_from_oldest (g : ChapterGenerator) (fs : FS)
    (chapter_number : Nat) :
    (g.get_existing_chapter_content fs chapter_number =
      if renderRev fs (g.included fs (List.range' 1 (chapter_number - 1)) 0) "" = ""
      then none
      else some (renderRev fs (g.included fs (List.range' 1 (chapter_number - 1)) 0) ""))
    ∧ ∃ k, g.included fs (List.range' 1 (chapter_number - 1)) 0 =
        ((List.range' 1 (chapter_number - 1)).filter
          (fun i => (fs.chapters.lookup i).isSome)).take k := by
  constructor
  · simp only [ChapterGenerator.get_existing_chapter_content, gather_eq_included]
  · exact included_initial_segment g fs _ 0

/-- A chapter-1 document of 2097152 characters: its token estimate 524288
is exactly the half-input budget of a non-pro model. -/
def bigChapter : String := String.mk (List.replicate 2097152 'a')

/-- Output directory holding a budget-filling chapter 1 and a tiny
chapter 2. -/
def fsC1 : FS := ⟨[(1, [bigChapter]), (2, ["abcd"])], fun _ => none⟩

/-- A generator constructed for the non-pro model used by the application's
defaults. -/
def genFlash : ChapterGenerator := ChapterGenerator.ofModels "gemini-1.5-flash-002"

/-- Counterexample to C1 as stated: with chapter 1 filling the whole budget
and chapter 2 tiny, the code keeps the OLDEST chapter (chapter 1) and
silently omits the NEWEST (chapter 2); gathering "from the latest chapter
backward" as the spec sentence describes (`get_existing_chapter_content_spec`)
would instead keep chapter 2 and omit chapter 1.  The two results differ, so
the claimed accumulation order is not the code's. -/
theorem get_existing_direction_counterexample :
    genFlash.get_existing_chapter_content fsC1 3 = some (bigChapter ++ "\n" ++ "")
    ∧ genFlash.get_existing_chapter_content_spec fsC1 3 = some ("abcd" ++ "\n" ++ "")
    ∧ genFlash.get_existing_chapter_content fsC1 3 ≠
        genFlash.get_existing_chapter_content_spec fsC1 3 := by
  have hmax : genFlash.MAX_INPUT_TOKENS / 2 = 524288 := by decide
  have hlen : bigChapter.length = 2097152 := List.length_replicate 2097152 'a'
  have hjoin : pyJoin "\n" [bigChapter] = bigChapter := rfl
  have hest : ∀ t, estimate_token_count t = t.length / 4 := fun _ => rfl
  have htokbig : estimate_token_count (pyJoin "\n" [bigChapter]) = 524288 := by
    rw [hjoin, hest, hlen]
  have htoksmall : estimate_token_count (pyJoin "\n" ["abcd"]) = 1 := by decide
  have h1 : fsC1.chapters.lookup 1 = some [bigChapter] := rfl
  have h2 : fsC1.chapters.lookup 2 = some ["abcd"] := rfl
  have hfit1 : (0 : Nat) + estimate_token_count (pyJoin "\n" [bigChapter]) ≤
      genFlash.MAX_INPUT_TOKENS / 2 := by
    rw [htokbig, hmax]
  have hover2 : (0 + estimate_token_count (pyJoin "\n" [bigChapter])) +
      estimate_token_count (pyJoin "\n" ["abcd"]) > genFlash.MAX_INPUT_TOKENS / 2 := by
    rw [htokbig, htoksmall, hmax]
    omega
  have hcode : genFlash.gather fsC1 [1, 2] "" 0 =
      (pyJoin "\n" [bigChapter] ++ "\n" ++ "",
        0 + estimate_token_count (pyJoin "\n" [bigChapter])) := by
    rw [gather_cons_fits h1 hfit1, gather_cons_over h2 hover2]
  have hfitS : (0 : Nat) + estimate_token_count (pyJoin "\n" ["abcd"]) ≤
      genFlash.MAX_INPUT_TOKENS / 2 := by
    rw [htoksmall, hmax]
    omega
  have hoverS : (0 + estimate_token_count (pyJoin "\n" ["abcd"])) +
      estimate_token_count (pyJoin "\n" [bigChapter]) > genFlash.MAX_INPUT_TOKENS / 2 := by
    rw [htokbig, htoksmall, hmax]
    omega
  have hspec : genFlash.gather fsC1 [2, 1] "" 0 =
      (pyJoin "\n" ["abcd"] ++ "\n" ++ "",
        0 + estimate_token_count (pyJoin "\n" ["abcd"])) := by
    rw [gather_cons_fits h2 hfitS, gather_cons_over h1 hoverS]
  have hlenbig : (bigChapter ++ "\n" ++ "").length = 2097153 := by
    rw [String.length_append, String.length_append, hlen]
    decide
  have hne : bigChapter ++ "\n" ++ "" ≠ "" := by
    intro h
    have := congrArg String.length h
    rw [hlenbig] at this
    simp at this
  have hneS : ("abcd" ++ "\n" ++ "" : String) ≠ "" := by decide
  have hrange : List.range' 1 (3 - 1) = [1, 2] := rfl
  have hcodeFull : genFlash.get_existing_chapter_content fsC1 3 =
      some (bigChapter ++ "\n" ++ "") := by
    simp only [ChapterGenerator.get_existing_chapter_content, hrange, hcode, hjoin]
    rw [if_neg hne]
  have hspecFull : genFlash.get_existing_chapter_content_spec fsC1 3 =
      some ("abcd" ++ "\n" ++ "") := by
    have hrangeS : (List.range' 1 (3 - 1)).reverse = [2, 1] := rfl
    simp only [ChapterGenerator.get_existing_chapter_content_spec, hrangeS, hspec]
    have hjS : pyJoin "\n" ["abcd"] = "abcd" := rfl
    rw [hjS, if_neg hneS]
  refine ⟨hcodeFull, hspecFull, ?_⟩
  rw [hcodeFull, hspecFull]
  intro h
  have h2' := congrArg String.length (Option.some.inj h)
  rw [hlenbig] at h2'
  have : ("abcd" ++ "\n" ++ "" : String).length = 5 := by decide
  rw [this] at h2'
  exact absurd h2' (by omega)

/-! ## Lemmas about the context manager -/

theorem upsertChar_keys (cs : List (String × String)) (n d : String) :
    ∃ t, (upsertChar cs n d).map Prod.fst = cs.map Prod.fst ++ t := by
  induction cs with
  | nil => exact ⟨[n], rfl⟩
  | cons kv rest ih =>
    obtain ⟨k, v⟩ := kv
    by_cases h : k = n
    · exact ⟨[], by simp [upsertChar, h]⟩
    · obtain ⟨t, ht⟩ := ih
      exact ⟨t, by simp [upsertChar, h, ht]⟩

theorem runCOps_extends (s : ContextManager) (l : List COp) :
    (∃ t, (runCOps s l).characters.map Prod.fst = s.characters.map Prod.fst ++ t)
    ∧ (∃ t, (runCOps s l).plot = s.plot ++ t)
    ∧ (∃ t, (runCOps s l).settings = s.settings ++ t)
    ∧ (∃ t, (runCOps s l).other_elements = s.other_elements ++ t) := by
  induction l generalizing s with
  | nil =>
    exact ⟨⟨[], by simp [runCOps]⟩, ⟨[], by simp [runCOps]⟩,
      ⟨[], by simp [runCOps]⟩, ⟨[], by simp [runCOps]⟩⟩
  | cons op rest ih =>
    have hstep : runCOps s (op :: rest) = runCOps (applyCOp s op) rest := rfl
    obtain ⟨⟨t1, h1⟩, ⟨t2, h2⟩, ⟨t3, h3⟩, ⟨t4, h4⟩⟩ := ih (applyCOp s op)
    rw [hstep]
    cases op with
    | add_character n d =>
      obtain ⟨u, hu⟩ := upsertChar_keys s.characters n d
      refine ⟨⟨u ++ t1, ?_⟩, ⟨t2, h2⟩, ⟨t3, h3⟩, ⟨t4, h4⟩⟩
      rw [h1]
      simp [applyCOp, ContextManager.add_character, hu]
    | add_plot_point p =>
      refine ⟨⟨t1, h1⟩, ⟨[p] ++ t2, ?_⟩, ⟨t3, h3⟩, ⟨t4, h4⟩⟩
      rw [h2]
      simp [applyCOp, ContextManager.add_plot_point]
    | add_setting st =>
      refine ⟨⟨t1, h1⟩, ⟨t2, h2⟩, ⟨[st] ++ t3, ?_⟩, ⟨t4, h4⟩⟩
      rw [h3]
      simp [applyCOp, ContextManager.add_setting]
    | add_other_element e =>
      refine ⟨⟨t1, h1⟩, ⟨t2, h2⟩, ⟨t3, h3⟩, ⟨[e] ++ t4, ?_⟩⟩
      rw [h4]
      simp [applyCOp, ContextManager.add_other_element]

/-- C5 (amended): after any sequence of add-calls, `get_context` is the fold
of exactly one formatted line per stored entry (`"characters: k: v\n"` for
the characters mapping, `"field: value\n"` for the sequence fields), with
the fields in the fixed order characters, plot, settings, other_elements
and insertion order inside each sequence field; entries of the three
sequence fields never disappear under further calls, and character NAMES
never disappear — but a later `add_character` with an existing name
replaces that name's description (Python dict last-write-wins), so a
particular name–description line can disappear (see the counterexample). -/
theorem get_context_lines_persistence (s : ContextManager) (l : List COp) :
    ((runCOps s l).context_lines.length =
      (runCOps s l).characters.length + (runCOps s l).plot.length +
        (runCOps s l).settings.length + (runCOps s l).other_elements.length)
    ∧ (∃ t, (runCOps s l).characters.map Prod.fst = s.characters.map Prod.fst ++ t)
    ∧ (∃ t, (runCOps s l).plot = s.plot ++ t)
    ∧ (∃ t, (runCOps s l).settings = s.settings ++ t)
    ∧ (∃ t, (runCOps s l).other_elements = s.other_elements ++ t)
    ∧ (∀ x, x ∈ s.plot → ("plot: " ++ x ++ "\n") ∈ (runCOps s l).context_lines)
    ∧ (∀ x, x ∈ s.settings → ("settings: " ++ x ++ "\n") ∈ (runCOps s l).context_lines)
    ∧ (∀ x, x ∈ s.other_elements →
        ("other_elements: " ++ x ++ "\n") ∈ (runCOps s l).context_lines)
    ∧ ContextManager.get_context (runCOps s l) =
        (runCOps s l).context_lines.foldl (fun acc ln => acc ++ ln) "" := by
  obtain ⟨hc, hp, hs, ho⟩ := runCOps_extends s l
  refine ⟨?_, hc, hp, hs, ho, ?_, ?_, ?_, rfl⟩
  · simp [ContextManager.context_lines]
    omega
  · intro x hx
    obtain ⟨t, ht⟩ := hp
    have hmem : x ∈ (runCOps s l).plot := by
      rw [ht]; exact List.mem_append_left t hx
    have hline := List.mem_map_of_mem (fun item => "plot: " ++ item ++ "\n") hmem
    exact List.mem_append_left _ (List.mem_append_left _ (List.mem_append_right _ hline))
  · intro x hx
    obtain ⟨t, ht⟩ := hs
    have hmem : x ∈ (runCOps s l).settings := by
      rw [ht]; exact List.mem_append_left t hx
    have hline := List.mem_map_of_mem (fun item => "settings: " ++ item ++ "\n") hmem
    exact List.mem_append_left _ (List.mem_append_right _ hline)
  · intro x hx
    obtain ⟨t, ht⟩ := ho
    have hmem : x ∈ (runCOps s l).other_elements := by
      rw [ht]; exact List.mem_append_left t hx
    have hline := List.mem_map_of_mem (fun item => "other_elements: " ++ item ++ "\n") hmem
    exact List.mem_append_right _ hline

/-- Witness for C5's amended theorem at a concrete state and call sequence:
the pre-existing plot entry still has its line after more calls (including a
character overwrite), and the line count matches the entry count. -/
theorem get_context_lines_persistence_witness :
    (("plot: " ++ "p1" ++ "\n") ∈
      (runCOps ⟨[("A", "1")], ["p1"], [], []⟩
        [COp.add_character "A" "2", COp.add_plot_point "p2"]).context_lines)
    ∧ (runCOps ⟨[("A", "1")], ["p1"], [], []⟩
        [COp.add_character "A" "2", COp.add_plot_point "p2"]).context_lines.length = 3 :=
  ⟨(get_context_lines_persistence ⟨[("A", "1")], ["p1"], [], []⟩
      [COp.add_character "A" "2", COp.add_plot_point "p2"]).2.2.2.2.2.1 "p1"
      (by decide),
    by decide⟩

/-- Counterexample to C5 as stated: `add_character "A" "1"` then
`add_character "A" "2"` — the line `characters: A: 1` produced by the first
call has disappeared from the later `get_context()` result, because the
second call overwrote the description stored under the name `A`. -/
theorem context_entry_disappears_counterexample :
    ContextManager.get_context (runCOps ContextManager.init [COp.add_character "A" "1"]) =
      "characters: A: 1\n"
    ∧ ContextManager.get_context (runCOps ContextManager.init
        [COp.add_character "A" "1", COp.add_character "A" "2"]) = "characters: A: 2\n"
    ∧ pyContainsS "characters: A: 1"
        (ContextManager.get_context (runCOps ContextManager.init
          [COp.add_character "A" "1", COp.add_character "A" "2"])) = false :=
  ⟨by decide, by decide, by decide⟩

/-- Appending to the empty string is the identity. -/
theorem string_empty_append (s : String) : "" ++ s = s := by
  cases s
  rfl

/-- C6: a validator parse with the expected marker missing degrades without
raising: if the boolean marker (`"Valid: Yes"` for the validity check,
`"Adheres to Style Guide: Yes"` for the style-guide check) is absent the
boolean outcome is `false`, and if `"Feedback:"` is absent the entire raw
response text becomes the feedback payload. -/
theorem validator_parse_degrades (t : String) :
    (pyContainsS "Valid: Yes" t = false → (check_chapter (Except.ok t)).1 = false)
    ∧ (pyContainsS "Feedback:" t = false → (check_chapter (Except.ok t)).2 = t)
    ∧ (pyContainsS "Adheres to Style Guide: Yes" t = false →
        (enforce_style_guide (Except.ok t)).1 = false)
    ∧ (pyContainsS "Feedback:" t = false → (enforce_style_guide (Except.ok t)).2 = t) := by
  refine ⟨?_, ?_, ?_, ?_⟩ <;> intro h <;>
    simp [check_chapter, enforce_style_guide, h]

/-- Witness for C6 at the concrete marker-free response
`"no markers here"`. -/
theorem validator_parse_degrades_witness :
    (check_chapter (Except.ok "no markers here")).1 = false
    ∧ (check_chapter (Except.ok "no markers here")).2 = "no markers here"
    ∧ (enforce_style_guide (Except.ok "no markers here")).1 = false
    ∧ (enforce_style_guide (Except.ok "no markers here")).2 = "no markers here" :=
  ⟨(validator_parse_degrades "no markers here").1 (by decide),
   (validator_parse_degrades "no markers here").2.1 (by decide),
   (validator_parse_degrades "no markers here").2.2.1 (by decide),
   (validator_parse_degrades "no markers here").2.2.2 (by decide)⟩

/-- C7: every validator pass catches its own endpoint exception and converts
it into a fixed error-feedback outcome (`false` where the pass produces a
boolean); and validator failures never prevent the remaining passes or the
persistence: with the generation call succeeding and the validator
responses completely arbitrary, the chapter document is still written
exactly as `save_response` writes it and the validity report exists at its
path. -/
theorem validator_failures_absorbed (e : String) (g : ChapterGenerator)
    (instr : Instructions) (ctx chapter_path : String) (chapter_number : Nat)
    (fs : FS) (chunks : List String) (c r st co te : Except String String) :
    check_chapter (Except.error e) =
        (false, "An error occurred while checking the chapter.")
    ∧ review_chapter (Except.error e) = ["An error occurred while reviewing the chapter."]
    ∧ enforce_style_guide (Except.error e) =
        (false, "An error occurred while enforcing the style guide.")
    ∧ check_continuity (Except.error e) =
        (false, "An error occurred while checking continuity.")
    ∧ run_tests (Except.error e) = ["An error occurred while running tests."]
    ∧ (generate_chapter g ⟨Except.ok chunks, c, r, st, co, te⟩ instr ctx chapter_path
          chapter_number fs).2.chapters =
        (save_response fs (concatChunks chunks) chapter_number).2.chapters
    ∧ (generate_chapter g ⟨Except.ok chunks, c, r, st, co, te⟩ instr ctx chapter_path
          chapter_number fs).2.validity (validity_path chapter_number) ≠ none := by
  refine ⟨rfl, rfl, rfl, rfl, rfl, rfl, ?_⟩
  simp [generate_chapter, save_validity_feedback]

/-- Witness for C7 at concrete inputs: with every validator endpoint
failing, the chapter document is written and the validity report exists. -/
theorem validator_failures_absorbed_witness :
    (generate_chapter (ChapterGenerator.ofModels "m")
        ⟨Except.ok ["text"], Except.error "x", Except.error "x", Except.error "x",
          Except.error "x", Except.error "x"⟩
        ⟨"", "", "", "", ""⟩ "" "output/Chapter 1.docx" 1 ⟨[], fun _ => none⟩).2.chapters =
      (save_response ⟨[], fun _ => none⟩ (concatChunks ["text"]) 1).2.chapters
    ∧ (generate_chapter (ChapterGenerator.ofModels "m")
        ⟨Except.ok ["text"], Except.error "x", Except.error "x", Except.error "x",
          Except.error "x", Except.error "x"⟩
        ⟨"", "", "", "", ""⟩ "" "output/Chapter 1.docx" 1 ⟨[], fun _ => none⟩).2.validity
        (validity_path 1) ≠ none :=
  ⟨(validator_failures_absorbed "x" (ChapterGenerator.ofModels "m")
      ⟨"", "", "", "", ""⟩ "" "output/Chapter 1.docx" 1 ⟨[], fun _ => none⟩ ["text"]
      (Except.error "x") (Except.error "x") (Except.error "x") (Except.error "x")
      (Except.error "x")).2.2.2.2.2.1,
   (validator_failures_absorbed "x" (ChapterGenerator.ofModels "m")
      ⟨"", "", "", "", ""⟩ "" "output/Chapter 1.docx" 1 ⟨[], fun _ => none⟩ ["text"]
      (Except.error "x") (Except.error "x") (Except.error "x") (Except.error "x")
      (Except.error "x")).2.2.2.2.2.2⟩

/-- C9: any exception raised by the generation call is caught at the top
level and surfaces as a chapter body `"Error generating chapter: ..."`
with the on-disk state untouched — and a successful generation whose text
happens to be exactly that error string returns the identical body, so the
caller cannot distinguish the two outcomes from the returned value. -/
theorem generation_error_masked (g : ChapterGenerator) (e : String)
    (instr : Instructions) (ctx chapter_path : String) (chapter_number : Nat)
    (fs : FS) (c r st co te c' r' st' co' te' : Except String String) :
    generate_chapter g ⟨Except.error e, c, r, st, co, te⟩ instr ctx chapter_path
        chapter_number fs = ("Error generating chapter: " ++ e, fs)
    ∧ (generate_chapter g ⟨Except.ok ["Error generating chapter: " ++ e], c', r', st', co', te'⟩
        instr ctx chapter_path chapter_number fs).1 = "Error generating chapter: " ++ e := by
  refine ⟨rfl, ?_⟩
  exact string_empty_append ("Error generating chapter: " ++ e)

/-- Counterexample to C3 as stated: in the end-to-end scenario
(chapter 1, no prior chapters on disk) with the generation endpoint call
failing, `generate_chapter` returns the literal error message but writes
NOTHING: no chapter document exists afterwards (so no document contains the
error message as its body) and no validity report exists either. -/
theorem generation_failure_writes_nothing_counterexample :
    (generate_chapter (ChapterGenerator.ofModels "gemini-1.5-flash-002")
        ⟨Except.error "boom", Except.ok "", Except.ok "", Except.ok "", Except.ok "",
          Except.ok ""⟩
        ⟨"A knight's quest", "Epic", "engaging", "", ""⟩ "" "output/Chapter 1.docx" 1
        ⟨[], fun _ => none⟩).1 = "Error generating chapter: boom"
    ∧ (generate_chapter (ChapterGenerator.ofModels "gemini-1.5-flash-002")
        ⟨Except.error "boom", Except.ok "", Except.ok "", Except.ok "", Except.ok "",
          Except.ok ""⟩
        ⟨"A knight's quest", "Epic", "engaging", "", ""⟩ "" "output/Chapter 1.docx" 1
        ⟨[], fun _ => none⟩).2.chapters = []
    ∧ (generate_chapter (ChapterGenerator.ofModels "gemini-1.5-flash-002")
        ⟨Except.error "boom", Except.ok "", Except.ok "", Except.ok "", Except.ok "",
          Except.ok ""⟩
        ⟨"A knight's quest", "Epic", "engaging", "", ""⟩ "" "output/Chapter 1.docx" 1
        ⟨[], fun _ => none⟩).2.validity (validity_path 1) = none :=
  ⟨by decide, rfl, rfl⟩

/-- C3 (amended): in the end-to-end scenario (chapter 1, empty output
directory), when the generation call itself fails `generate_chapter`
returns the literal error message as the chapter body and writes no
documents at all; when the generation call succeeds — even with every
validator endpoint failing — it writes exactly one chapter document
(`Chapter 1` heading plus the chapter body) and one validity report with
all five feedback sections, without raising, and returns the chapter
text. -/
theorem end_to_end_scenario (g : ChapterGenerator) (instr : Instructions)
    (ctx chapter_path : String) (e ev : String) (chunks : List String)
    (v : String → Option Doc) (c r st co te : Except String String) :
    (generate_chapter g ⟨Except.error e, c, r, st, co, te⟩ instr ctx chapter_path 1
        ⟨[], v⟩).1 = "Error generating chapter: " ++ e
    ∧ (generate_chapter g ⟨Except.error e, c, r, st, co, te⟩ instr ctx chapter_path 1
        ⟨[], v⟩).2.chapters = []
    ∧ (generate_chapter g ⟨Except.ok chunks, Except.error ev, Except.error ev,
          Except.error ev, Except.error ev, Except.error ev⟩ instr ctx chapter_path 1
        ⟨[], v⟩).2.chapters =
        [(1, ["Chapter " ++ toString 1, concatChunks chunks])]
    ∧ (generate_chapter g ⟨Except.ok chunks, Except.error ev, Except.error ev,
          Except.error ev, Except.error ev, Except.error ev⟩ instr ctx chapter_path 1
        ⟨[], v⟩).2.validity (validity_path 1) = some
        ["Chapter Validity and Feedback",
         "Is Valid: False",
         "Feedback: An error occurred while checking the chapter.",
         "Content Review Feedback",
         "An error occurred while reviewing the chapter.",
         "Style Guide Feedback",
         "Adheres to Style Guide: False",
         "Feedback: An error occurred while enforcing the style guide.",
         "Continuity Feedback",
         "Continuity: True",
         "Feedback: No previous chapters available for continuity check.",
         "Automated Test Results",
         "An error occurred while running tests."]
    ∧ (generate_chapter g ⟨Except.ok chunks, Except.error ev, Except.error ev,
          Except.error ev, Except.error ev, Except.error ev⟩ instr ctx chapter_path 1
        ⟨[], v⟩).1 = concatChunks chunks := by
  refine ⟨rfl, rfl, rfl, ?_, rfl⟩
  simp [generate_chapter, save_validity_feedback, save_response, check_chapter,
    review_chapter, enforce_style_guide, check_continuity, run_tests,
    validity_doc, pyBool, ChapterGenerator.get_existing_chapter_content,
    ChapterGenerator.gather]

/-- C8: when no previous-chapter text exists, the generation prompt carries
the literal placeholder `"No previous chapters"` in the Previous Chapters
slot, the continuity check is skipped entirely (the outcome does not depend
on the continuity endpoint's response at all), and the continuity outcome
written to the validity report is fixed `true` with the sentinel no-previous-
chapters message. -/
theorem no_previous_chapters_behavior (g : ChapterGenerator) (instr : Instructions)
    (ctx chapter_path : String) (chapter_number : Nat) (fs : FS)
    (o : Oracle) (co' : Except String String)
    (hprev : g.get_existing_chapter_content fs chapter_number = none) :
    (∃ pre post, construct_prompt instr ctx
        (g.get_existing_chapter_content fs chapter_number) chapter_path =
        pre ++ "No previous chapters" ++ post)
    ∧ generate_chapter g o instr ctx chapter_path chapter_number fs =
        generate_chapter g { o with continuity := co' } instr ctx chapter_path
          chapter_number fs
    ∧ (∀ chunks, o.generation = Except.ok chunks →
        (generate_chapter g o instr ctx chapter_path chapter_number fs).2.validity
            (validity_path chapter_number) = some (validity_doc
          (check_chapter o.check).1 (check_chapter o.check).2 (review_chapter o.review)
          (enforce_style_guide o.style).2
          "No previous chapters available for continuity check."
          (run_tests o.tests) (enforce_style_guide o.style).1 true)) := by
  refine ⟨?_, ?_, ?_⟩
  · rw [hprev]
    exact ⟨_, _, rfl⟩
  · simp [generate_chapter, hprev]
  · intro chunks hok
    simp [generate_chapter, hprev, hok, save_validity_feedback]

/-- Witness for C8 at a concrete empty output directory: the continuity
response is ignored and the report records the fixed continuity outcome. -/
theorem no_previous_chapters_behavior_witness :
    (generate_chapter (ChapterGenerator.ofModels "m")
        ⟨Except.ok ["text"], Except.ok "ok", Except.ok "ok", Except.ok "ok",
          Except.ok "ok", Except.ok "ok"⟩ ⟨"", "", "", "", ""⟩ "" "p" 1
        ⟨[], fun _ => none⟩ =
      generate_chapter (ChapterGenerator.ofModels "m")
        ⟨Except.ok ["text"], Except.ok "ok", Except.ok "ok", Except.ok "ok",
          Except.error "dead", Except.ok "ok"⟩ ⟨"", "", "", "", ""⟩ "" "p" 1
        ⟨[], fun _ => none⟩)
    ∧ (generate_chapter (ChapterGenerator.ofModels "m")
        ⟨Except.ok ["text"], Except.ok "ok", Except.ok "ok", Except.ok "ok",
          Except.ok "ok", Except.ok "ok"⟩ ⟨"", "", "", "", ""⟩ "" "p" 1
        ⟨[], fun _ => none⟩).2.validity (validity_path 1) = some (validity_doc
          (check_chapter (Except.ok "ok")).1 (check_chapter (Except.ok "ok")).2
          (review_chapter (Except.ok "ok"))
          (enforce_style_guide (Except.ok "ok")).2
          "No previous chapters available for continuity check."
          (run_tests (Except.ok "ok")) (enforce_style_guide (Except.ok "ok")).1 true) :=
  ⟨(no_previous_chapters_behavior (ChapterGenerator.ofModels "m") ⟨"", "", "", "", ""⟩
      "" "p" 1 ⟨[], fun _ => none⟩
      ⟨Except.ok ["text"], Except.ok "ok", Except.ok "ok", Except.ok "ok",
        Except.ok "ok", Except.ok "ok"⟩ (Except.error "dead") (by decide)).2.1,
   (no_previous_chapters_behavior (ChapterGenerator.ofModels "m") ⟨"", "", "", "", ""⟩
      "" "p" 1 ⟨[], fun _ => none⟩
      ⟨Except.ok ["text"], Except.ok "ok", Except.ok "ok", Except.ok "ok",
        Except.ok "ok", Except.ok "ok"⟩ (Except.error "dead") (by decide)).2.2
      ["text"] rfl⟩

/-- C10: `save_validity_feedback` writes the report to the fixed path
`output/Chapter {N} validity.docx` where `N` is the chapter number it is
given — `generate_chapter` passes the originally requested number — for
every destination `chapter_path` supplied by the caller (the parameter is
ignored), overwriting whatever report was at that path; and when the
requested number was already occupied, the chapter document is renumbered
while the report keeps `N`, so the two numbers diverge. -/
theorem validity_report_fixed_path (fs : FS) (is_valid : Bool)
    (feedback chapter_path : String) (review_fb : List String)
    (style_fb cont_fb : String) (test_results : List String) (adheres cont : Bool)
    (N : Nat) (g : ChapterGenerator) (instr : Instructions)
    (ctx chapter_path' : String) (chunks : List String)
    (c r st co te : Except String String) :
    (save_validity_feedback fs is_valid feedback chapter_path review_fb style_fb
        cont_fb test_results adheres cont N).1 =
      "output/Chapter " ++ toString N ++ " validity.docx"
    ∧ (save_validity_feedback fs is_valid feedback chapter_path review_fb style_fb
        cont_fb test_results adheres cont N).2.validity (validity_path N) =
        some (validity_doc is_valid feedback review_fb style_fb cont_fb test_results
          adheres cont)
    ∧ (generate_chapter g ⟨Except.ok chunks, c, r, st, co, te⟩ instr ctx chapter_path'
        N fs).2.validity (validity_path N) ≠ none
    ∧ (N ∈ fs.occupied → (save_response fs (concatChunks chunks) N).1 ≠ N) := by
  refine ⟨rfl, ?_, ?_, ?_⟩
  · simp [save_validity_feedback]
  · simp [generate_chapter, save_validity_feedback]
  · intro hN heq
    have hfree := (save_response_next_free fs (concatChunks chunks) N).1
    rw [heq] at hfree
    exact hfree hN

/-- Witness for C10: with chapter 1 already on disk, the chapter document is
renumbered away from 1 while the validity report still goes to
`output/Chapter 1 validity.docx`. -/
theorem validity_report_fixed_path_witness :
    (save_validity_feedback ⟨[(1, ["Chapter 1", "old"])], fun _ => none⟩ true "fb"
        "custom/dir/Chapter 1.docx" ["rv"] "sg" "cf" ["tr"] true true 1).1 =
      "output/Chapter " ++ toString 1 ++ " validity.docx"
    ∧ (save_response ⟨[(1, ["Chapter 1", "old"])], fun _ => none⟩
        (concatChunks ["text"]) 1).1 ≠ 1 :=
  ⟨(validity_report_fixed_path ⟨[(1, ["Chapter 1", "old"])], fun _ => none⟩ true "fb"
      "custom/dir/Chapter 1.docx" ["rv"] "sg" "cf" ["tr"] true true 1
      (ChapterGenerator.ofModels "m") ⟨"", "", "", "", ""⟩ "" "p" ["text"]
      (Except.ok "") (Except.ok "") (Except.ok "") (Except.ok "") (Except.ok "")).1,
   (validity_report_fixed_path ⟨[(1, ["Chapter 1", "old"])], fun _ => none⟩ true "fb"
      "custom/dir/Chapter 1.docx" ["rv"] "sg" "cf" ["tr"] true true 1
      (ChapterGenerator.ofModels "m") ⟨"", "", "", "", ""⟩ "" "p" ["text"]
      (Except.ok "") (Except.ok "") (Except.ok "") (Except.ok "") (Except.ok "")).2.2.2
      (by decide)⟩
